import Mathlib

/-!
Shallow embedding of `src/v2/routes.py` (BDSMLR client routing blueprint).

The module resolves an incoming request (host, path, routing mode) to one
of a fixed set of client pages, or rejects API-owned paths.  We embed the
Python string operations on `List Char` with structural recursion so that
every definition evaluates inside the kernel, and translate the functions
of the module (`_is_api_path`, `_get_subdomain`, `catch_all`) and its
constants one-to-one.
-/

namespace ClientRoutes

/-- ASCII lower-casing of one character, as Python `str.lower` acts on ASCII. -/
def lowerChar (c : Char) : Char :=
  if 'A' ≤ c ∧ c ≤ 'Z' then Char.ofNat (c.toNat + 32) else c

/-- Python `s.lower()` (our inputs are ASCII). -/
def pyLower (s : String) : String :=
  String.mk (s.toList.map lowerChar)

/-- Python `s.lstrip(sep)` on the character list. -/
def lstripL (sep : Char) (l : List Char) : List Char :=
  l.dropWhile (fun c => c = sep)

/-- Python `s.strip(sep)` on the character list. -/
def stripL (sep : Char) (l : List Char) : List Char :=
  ((l.dropWhile (fun c => c = sep)).reverse.dropWhile (fun c => c = sep)).reverse

/-- Python `s.lstrip(sep)`. -/
def pyLstrip (sep : Char) (s : String) : String :=
  String.mk (lstripL sep s.toList)

/-- Python `s.strip(sep)`. -/
def pyStrip (sep : Char) (s : String) : String :=
  String.mk (stripL sep s.toList)

/-- Python split for a one-character separator, on character lists: splits
at every occurrence and keeps empty fields, so the result is never empty —
splitting the empty string yields a single empty field. -/
def splitChar (sep : Char) : List Char → List (List Char)
  | [] => [[]]
  | c :: cs =>
    if c = sep then [] :: splitChar sep cs
    else (c :: (splitChar sep cs).headD []) :: (splitChar sep cs).tail

/-- Python `s.split(sep)` for a one-character separator. -/
def pySplit (sep : Char) (s : String) : List String :=
  (splitChar sep s.toList).map String.mk

/-- Python `s.startswith(p)` on character lists. -/
def beginsWithL : List Char → List Char → Bool
  | [], _ => true
  | _ :: _, [] => false
  | p :: ps, c :: cs => p = c && beginsWithL ps cs

/-- Python `s.startswith(p)`. -/
def beginsWith (p s : String) : Bool :=
  beginsWithL p.toList s.toList

/-- Constant `STATIC_PAGES` from routes.py. -/
def STATIC_PAGES : List String := ["search", "blogs", "home", "clear-cache"]

/-- Constant `BLOG_PAGES` from routes.py. -/
def BLOG_PAGES : List String := ["archive", "timeline", "following", "social"]

/-- Constant `RESERVED_SUBDOMAINS` from routes.py. -/
def RESERVED_SUBDOMAINS : List String := ["www", "api", "cdn", "static", "admin", "app"]

/-- Constant `API_PREFIXES` from routes.py. -/
def API_PREFIXES : List String := ["v1", "v2", "api", "auth", "admin", "health", "metrics", "static"]

/-- Constant `ROUTING_MODE` from routes.py: the mode string read from the
environment via os.environ.get, defaulting to `"path"` when absent. -/
def ROUTING_MODE (env : Option String) : String :=
  env.getD "path"

/-- Outcome of resolution: `Rejected` models the `abort(404)` taken for
API-owned paths, `Serve p` models `_serve_page(p)`. -/
inductive ResolutionResult where
  | Rejected : ResolutionResult
  | Serve : String → ResolutionResult
deriving DecidableEq, Repr

/-- Function `_is_api_path` from routes.py: the empty path is not an API
path; otherwise the first segment of the path with leading slashes
removed, lower-cased, is tested against `API_PREFIXES`. -/
def is_api_path (path : String) : Bool :=
  if path = "" then false
  else decide (pyLower ((pySplit '/' (pyLstrip '/' path)).headD "") ∈ API_PREFIXES)

/-- The dot-separated labels of the request host with any port removed and
lower-cased, as computed at the start of `_get_subdomain`. -/
def hostLabels (host : String) : List String :=
  pySplit '.' (pyLower ((pySplit ':' host).headD ""))

/-- Function `_get_subdomain` from routes.py, with the request host made
explicit: no subdomain for hosts of fewer than 3 labels, for reserved
first labels, and for first labels starting with `api`. -/
def get_subdomain (host : String) : Option String :=
  if (hostLabels host).length < 3 then none
  else if (hostLabels host).headD "" ∈ RESERVED_SUBDOMAINS
          ∨ beginsWith "api" ((hostLabels host).headD "") = true then none
  else some ((hostLabels host).headD "")

/-- The local variable parts from `catch_all`: empty for the empty path,
otherwise the path stripped of surrounding slashes and split on slash. -/
def partsOfPath (path : String) : List String :=
  if path = "" then [] else pySplit '/' (pyStrip '/' path)

/-- Function `catch_all` from routes.py, with the routing mode and request
host made explicit.  Python truthiness: the conditional expression choosing
between archive and home at the root serves `archive` exactly when
`_get_subdomain` returned a non-empty string. -/
def catch_all (mode host path : String) : ResolutionResult :=
  if is_api_path path = true then ResolutionResult.Rejected
  else if mode = "subdomain" then
    if partsOfPath path = [] then
      if (get_subdomain host).getD "" = "" then ResolutionResult.Serve "home"
      else ResolutionResult.Serve "archive"
    else if (partsOfPath path).headD "" ∈ BLOG_PAGES
            ∨ (partsOfPath path).headD "" ∈ STATIC_PAGES then
      ResolutionResult.Serve ((partsOfPath path).headD "")
    else ResolutionResult.Serve "archive"
  else
    if partsOfPath path = [] then ResolutionResult.Serve "home"
    else if (partsOfPath path).length = 1 then
      if (partsOfPath path).headD "" ∈ STATIC_PAGES then
        ResolutionResult.Serve ((partsOfPath path).headD "")
      else ResolutionResult.Serve "archive"
    else
      if (partsOfPath path).getD 1 "" ∈ BLOG_PAGES then
        ResolutionResult.Serve ((partsOfPath path).getD 1 "")
      else ResolutionResult.Serve "archive"

/-- The path argument Flask hands to `catch_all`: the blueprint declares a
root rule whose defaults bind the argument to the empty string, together
with a catch-all rule whose path converter captures the request path
without its leading slash — so the root path arrives as the empty string. -/
def pathOf (rawPath : String) : String :=
  String.mk (rawPath.toList.dropWhile (fun c => c = '/'))

/-- The resolver: the URL rules of the blueprint composed with `catch_all`. -/
def resolve (host rawPath mode : String) : ResolutionResult :=
  catch_all mode host (pathOf rawPath)

/-- The `parts` list `catch_all` computes for a given request path. -/
def partsOf (rawPath : String) : List String :=
  partsOfPath (pathOf rawPath)

/-- The first segment `_is_api_path` inspects for a given request path. -/
def firstSegment (rawPath : String) : String :=
  (pySplit '/' (pyLstrip '/' (pathOf rawPath))).headD ""

/-- The closed set of pages the module can serve. -/
def knownPages : List String := STATIC_PAGES ++ BLOG_PAGES

example : resolve "site.com" "/" "path" = ResolutionResult.Serve "home" := by decide
example : resolve "site.com" "/search" "path" = ResolutionResult.Serve "search" := by decide
example : resolve "site.com" "/alice" "path" = ResolutionResult.Serve "archive" := by decide
example : resolve "site.com" "/alice/timeline" "path" = ResolutionResult.Serve "timeline" := by decide
example : resolve "site.com" "/alice/unknown" "path" = ResolutionResult.Serve "archive" := by decide
example : resolve "site.com" "/v2/foo" "path" = ResolutionResult.Rejected := by decide
example : resolve "alice.bdsmlr.com" "/" "subdomain" = ResolutionResult.Serve "archive" := by decide
example : resolve "bdsmlr.com" "/" "subdomain" = ResolutionResult.Serve "home" := by decide
example : resolve "api.bdsmlr.com" "/" "subdomain" = ResolutionResult.Serve "home" := by decide
example : resolve "alice.bdsmlr.com" "/social" "subdomain" = ResolutionResult.Serve "social" := by decide

/-! ## Helper lemmas -/

theorem mem_knownPages_of_static {p : String} (h : p ∈ STATIC_PAGES) : p ∈ knownPages :=
  List.mem_append.mpr (Or.inl h)

theorem mem_knownPages_of_blog {p : String} (h : p ∈ BLOG_PAGES) : p ∈ knownPages :=
  List.mem_append.mpr (Or.inr h)

theorem serve_ne_rejected {p : String} :
    ResolutionResult.Serve p ≠ ResolutionResult.Rejected :=
  fun h => ResolutionResult.noConfusion h

/-- If the API check fails, `catch_all` serves some page: every remaining
branch returns `Serve _`. -/
theorem catch_all_ne_rejected {mode host path : String}
    (h : is_api_path path = false) :
    catch_all mode host path ≠ ResolutionResult.Rejected := by
  unfold catch_all
  rw [h]
  simp only [Bool.false_eq_true, if_false]
  split_ifs <;> exact serve_ne_rejected

/-- `catch_all` reads its path argument only through `is_api_path` and
`partsOfPath`. -/
theorem catch_all_congr {mode host p₁ p₂ : String}
    (h₁ : is_api_path p₁ = is_api_path p₂)
    (h₂ : partsOfPath p₁ = partsOfPath p₂) :
    catch_all mode host p₁ = catch_all mode host p₂ := by
  unfold catch_all
  rw [h₁, h₂]

/-! ## C5: root path in PATH mode -/

/-- C5: in PATH mode the root path resolves to `Serve home` for every host;
both the empty raw path and the raw path consisting of a single slash are
routed to the handler as the empty path and yield `Serve home`. -/
theorem path_mode_root (host : String) :
    resolve host "" "path" = ResolutionResult.Serve "home" ∧
    resolve host "/" "path" = ResolutionResult.Serve "home" :=
  ⟨rfl, rfl⟩

/-! ## C10: every mode other than "subdomain" is PATH mode -/

/-- C10: for every mode string other than `"subdomain"` — misspelled,
upper-cased, empty, or any other value — resolution coincides with PATH
mode on every host and raw path; there is no error branch for an
unrecognized mode, and the mode read from an absent setting defaults to
`"path"`. -/
theorem mode_fallback_to_path :
    (∀ host rawPath mode, mode ≠ "subdomain" →
      resolve host rawPath mode = resolve host rawPath "path") ∧
    ROUTING_MODE none = "path" := by
  refine ⟨fun host rawPath mode h => ?_, rfl⟩
  unfold resolve catch_all
  rw [if_neg h, if_neg (by decide : ¬ ("path" : String) = "subdomain")]

/-- Witness for C10 at the concrete mode `"SUBDOMAIN"` (upper-cased). -/
theorem mode_fallback_to_path_witness :
    resolve "site.com" "search" "SUBDOMAIN" = resolve "site.com" "search" "path" :=
  mode_fallback_to_path.1 "site.com" "search" "SUBDOMAIN" (by decide)

/-! ## C3: PATH mode, two or more segments -/

/-- C3: in PATH mode, for a non-API path whose `parts` list has two or more
entries, the result is `Serve parts[1]` when `parts[1]` is a blog page and
`Serve archive` otherwise; the host and the first segment (the blog name)
are arbitrary and unvalidated. -/
theorem path_mode_two_segments (host rawPath : String)
    (hapi : is_api_path (pathOf rawPath) = false)
    (hlen : 2 ≤ (partsOf rawPath).length) :
    resolve host rawPath "path" =
      if (partsOf rawPath).getD 1 "" ∈ BLOG_PAGES then
        ResolutionResult.Serve ((partsOf rawPath).getD 1 "")
      else ResolutionResult.Serve "archive" := by
  have hne : partsOf rawPath ≠ [] := by
    intro h
    rw [h] at hlen
    exact absurd hlen (by decide)
  have hone : ¬ (partsOf rawPath).length = 1 := by
    intro h
    rw [h] at hlen
    exact absurd hlen (by decide)
  unfold resolve catch_all
  rw [hapi, if_neg (by decide : ¬ (false = true)),
    if_neg (by decide : ¬ ("path" : String) = "subdomain"),
    if_neg (show ¬ partsOfPath (pathOf rawPath) = [] from hne),
    if_neg (show ¬ (partsOfPath (pathOf rawPath)).length = 1 from hone)]
  rfl

/-- Witness for C3 at host `site.com` and raw path `alice/timeline`. -/
theorem path_mode_two_segments_witness :
    is_api_path (pathOf "alice/timeline") = false ∧
    2 ≤ (partsOf "alice/timeline").length ∧
    resolve "site.com" "alice/timeline" "path" = ResolutionResult.Serve "timeline" :=
  ⟨by decide, by decide,
    (path_mode_two_segments "site.com" "alice/timeline" (by decide) (by decide)).trans
      (by decide)⟩

/-! ## C4: PATH mode, exactly one segment -/

/-- C4: in PATH mode, for a non-API path whose `parts` list has exactly one
entry, the result is `Serve s` when the segment `s` is a recognized static
page, and `Serve archive` otherwise (the segment is treated as a blog name
and the blog landing view is served). -/
theorem path_mode_one_segment (host rawPath : String)
    (hapi : is_api_path (pathOf rawPath) = false)
    (hlen : (partsOf rawPath).length = 1) :
    resolve host rawPath "path" =
      if (partsOf rawPath).headD "" ∈ STATIC_PAGES then
        ResolutionResult.Serve ((partsOf rawPath).headD "")
      else ResolutionResult.Serve "archive" := by
  have hne : partsOf rawPath ≠ [] := by
    intro h
    rw [h] at hlen
    exact absurd hlen (by decide)
  unfold resolve catch_all
  rw [hapi, if_neg (by decide : ¬ (false = true)),
    if_neg (by decide : ¬ ("path" : String) = "subdomain"),
    if_neg (show ¬ partsOfPath (pathOf rawPath) = [] from hne),
    if_pos (show (partsOfPath (pathOf rawPath)).length = 1 from hlen)]
  rfl

/-- Witness for C4 at host `site.com` and raw path `alice`. -/
theorem path_mode_one_segment_witness :
    is_api_path (pathOf "alice") = false ∧
    (partsOf "alice").length = 1 ∧
    resolve "site.com" "alice" "path" = ResolutionResult.Serve "archive" :=
  ⟨by decide, by decide,
    (path_mode_one_segment "site.com" "alice" (by decide) (by decide)).trans
      (by decide)⟩

/-! ## C7: SUBDOMAIN mode, at least one segment -/

/-- C7: in SUBDOMAIN mode, for a non-API path whose `parts` list is
non-empty, the result is `Serve parts[0]` when `parts[0]` is a blog page or
a static page, and `Serve archive` otherwise — for every host, which does
not occur in the conclusion. -/
theorem subdomain_mode_segments (host rawPath : String)
    (hapi : is_api_path (pathOf rawPath) = false)
    (hne : partsOf rawPath ≠ []) :
    resolve host rawPath "subdomain" =
      if (partsOf rawPath).headD "" ∈ BLOG_PAGES
         ∨ (partsOf rawPath).headD "" ∈ STATIC_PAGES then
        ResolutionResult.Serve ((partsOf rawPath).headD "")
      else ResolutionResult.Serve "archive" := by
  unfold resolve catch_all
  rw [hapi, if_neg (by decide : ¬ (false = true)),
    if_pos (rfl : ("subdomain" : String) = "subdomain"),
    if_neg (show ¬ partsOfPath (pathOf rawPath) = [] from hne)]
  rfl

/-- Witness for C7 at host `alice.bdsmlr.com` and raw path `social`. -/
theorem subdomain_mode_segments_witness :
    is_api_path (pathOf "social") = false ∧
    partsOf "social" ≠ [] ∧
    resolve "alice.bdsmlr.com" "social" "subdomain" = ResolutionResult.Serve "social" :=
  ⟨by decide, by decide,
    (subdomain_mode_segments "alice.bdsmlr.com" "social" (by decide) (by decide)).trans
      (by decide)⟩

/-! ## C1: the result set is closed -/

/-- C1: for every host, raw path and mode, resolution yields either
`Rejected` or `Serve p` with `p` drawn from the fixed known-page set (the
static pages together with the blog pages); the resolver is a total
function and never serves an identifier outside that set. -/
theorem resolve_result_closed (host rawPath mode : String) :
    resolve host rawPath mode = ResolutionResult.Rejected ∨
    ∃ p, resolve host rawPath mode = ResolutionResult.Serve p ∧ p ∈ knownPages := by
  unfold resolve catch_all
  split_ifs with h1 h2 h3 h4 h5 h6 h7 h8 h9
  · exact Or.inl rfl
  · exact Or.inr ⟨"home", rfl, by decide⟩
  · exact Or.inr ⟨"archive", rfl, by decide⟩
  · exact Or.inr ⟨_, rfl, h5.elim mem_knownPages_of_blog mem_knownPages_of_static⟩
  · exact Or.inr ⟨"archive", rfl, by decide⟩
  · exact Or.inr ⟨"home", rfl, by decide⟩
  · exact Or.inr ⟨_, rfl, mem_knownPages_of_static h8⟩
  · exact Or.inr ⟨"archive", rfl, by decide⟩
  · exact Or.inr ⟨_, rfl, mem_knownPages_of_blog h9⟩
  · exact Or.inr ⟨"archive", rfl, by decide⟩

/-! ## C2: API prefixes are rejected, before any mode-specific logic -/

/-- C2: for every mode and host, resolution rejects exactly when the
(lower-cased) first segment of the request path is an API prefix — so the
check is independent of mode and host, short-circuiting all mode-specific
logic — and a root path, whose first segment is empty, is never rejected. -/
theorem api_prefix_rejects (host rawPath mode : String) :
    resolve host rawPath mode = ResolutionResult.Rejected ↔
      pyLower (firstSegment rawPath) ∈ API_PREFIXES := by
  constructor
  · intro h
    by_cases hapi : is_api_path (pathOf rawPath) = true
    · by_cases hp : pathOf rawPath = ""
      · rw [is_api_path, if_pos hp] at hapi
        exact absurd hapi (by decide)
      · rw [is_api_path, if_neg hp] at hapi
        exact of_decide_eq_true hapi
    · rw [Bool.not_eq_true] at hapi
      exact absurd h (catch_all_ne_rejected hapi)
  · intro h
    have hp : pathOf rawPath ≠ "" := by
      intro hp
      rw [firstSegment, hp] at h
      exact absurd h (by decide)
    have hapi : is_api_path (pathOf rawPath) = true := by
      rw [is_api_path, if_neg hp]
      exact decide_eq_true h
    unfold resolve catch_all
    rw [hapi, if_pos rfl]

/-! ## C9: consecutive separators (corrected) -/

/-- C9 counterexample: Python split on slash keeps empty fields, so
`alice//timeline` splits into `[alice, "", timeline]`; segment 1 is the
empty string, not `timeline`, and PATH mode serves `archive` where the
claim demands `Serve timeline`. -/
theorem empty_segment_counterexample :
    partsOf "alice//timeline" = ["alice", "", "timeline"] ∧
    resolve "site.com" "alice//timeline" "path" = ResolutionResult.Serve "archive" ∧
    resolve "site.com" "alice//timeline" "path" ≠ ResolutionResult.Serve "timeline" := by
  decide

/-- C9 amended: the normalized path is split on `/` keeping empty fields,
so consecutive separators contribute empty segments; in PATH mode
`alice//timeline` therefore resolves to `Serve archive` for every host,
because segment 1 is the empty string and not a blog page. -/
theorem empty_segment_amended (host : String) :
    partsOf "alice//timeline" = ["alice", "", "timeline"] ∧
    resolve host "alice//timeline" "path" = ResolutionResult.Serve "archive" :=
  ⟨by decide, rfl⟩

/-! ## C6: SUBDOMAIN mode at the root path (corrected) -/

/-- C6 counterexample: the host `.a.b` has three dot-separated labels whose
first label (the empty string) is neither reserved nor `api`-prefixed, yet
the root path resolves to `Serve home`, not `Serve archive`: Python
truthiness treats the empty subdomain string as an absent blog context. -/
theorem subdomain_root_counterexample :
    (hostLabels ".a.b").length = 3 ∧
    (hostLabels ".a.b").headD "" ∉ RESERVED_SUBDOMAINS ∧
    beginsWith "api" ((hostLabels ".a.b").headD "") = false ∧
    resolve ".a.b" "" "subdomain" = ResolutionResult.Serve "home" := by
  decide

/-- C6 amended: in SUBDOMAIN mode with the root path, the result is
`Serve home` when the host has fewer than 3 labels, when its first label is
reserved or starts with `api`, or when its first label is empty; otherwise
the result is `Serve archive`.  Moreover a reserved first label never
yields a blog context: `get_subdomain` returns `none` for it. -/
theorem subdomain_root_amended (host : String) :
    (resolve host "" "subdomain" =
      if (hostLabels host).length < 3
         ∨ ((hostLabels host).headD "" ∈ RESERVED_SUBDOMAINS
            ∨ beginsWith "api" ((hostLabels host).headD "") = true)
         ∨ (hostLabels host).headD "" = ""
       then ResolutionResult.Serve "home" else ResolutionResult.Serve "archive") ∧
    ((hostLabels host).headD "" ∈ RESERVED_SUBDOMAINS → get_subdomain host = none) := by
  have hroot : resolve host "" "subdomain" =
      (if (get_subdomain host).getD "" = "" then ResolutionResult.Serve "home"
       else ResolutionResult.Serve "archive") := by
    unfold resolve catch_all
    rw [if_neg (by decide : ¬ is_api_path (pathOf "") = true),
      if_pos (rfl : ("subdomain" : String) = "subdomain"),
      if_pos (by decide : partsOfPath (pathOf "") = [])]
  constructor
  · rw [hroot]
    unfold get_subdomain
    by_cases h3 : (hostLabels host).length < 3
    · rw [if_pos h3, if_pos (show Option.getD none "" = "" from rfl), if_pos (Or.inl h3)]
    · rw [if_neg h3]
      by_cases hres : (hostLabels host).headD "" ∈ RESERVED_SUBDOMAINS
          ∨ beginsWith "api" ((hostLabels host).headD "") = true
      · rw [if_pos hres, if_pos (show Option.getD none "" = "" from rfl),
          if_pos (Or.inr (Or.inl hres))]
      · rw [if_neg hres]
        by_cases hemp : (hostLabels host).headD "" = ""
        · rw [if_pos (show Option.getD (some ((hostLabels host).headD "")) "" = "" from hemp),
            if_pos (Or.inr (Or.inr hemp))]
        · rw [if_neg (show ¬ Option.getD (some ((hostLabels host).headD "")) "" = "" from hemp),
            if_neg (by
              rintro (h | h | h)
              · exact h3 h
              · exact hres h
              · exact hemp h)]
  · intro hmem
    unfold get_subdomain
    by_cases h3 : (hostLabels host).length < 3
    · rw [if_pos h3]
    · rw [if_neg h3, if_pos (Or.inl hmem)]

/-- Witness for the implication in the amended C6: `www` is reserved, so
`www.bdsmlr.com` yields no blog context. -/
theorem subdomain_root_amended_witness :
    get_subdomain "www.bdsmlr.com" = none :=
  (subdomain_root_amended "www.bdsmlr.com").2 (by decide)

/-! ## C8: invariance under path normalization (corrected)

Path-segment matching against the page sets is case-sensitive (only the
API-prefix comparison lower-cases), so case variation is not neutral.
Trimming of leading and trailing separators, however, is: we prove it via
a chain of lemmas about the character-list operations. -/

/-- C8 counterexample: `SEARCH` is compared case-sensitively against
`STATIC_PAGES`, so `/SEARCH/` falls back to `archive` while `search` is
served; resolution is not invariant under lower-casing path segments. -/
theorem case_normalization_counterexample :
    resolve "site.com" "/SEARCH/" "path" = ResolutionResult.Serve "archive" ∧
    resolve "site.com" "search" "path" = ResolutionResult.Serve "search" ∧
    resolve "site.com" "/SEARCH/" "path" ≠ resolve "site.com" "search" "path" := by
  decide

theorem splitChar_ne_nil (sep : Char) (l : List Char) : splitChar sep l ≠ [] := by
  cases l with
  | nil => simp [splitChar]
  | cons c cs =>
    unfold splitChar
    split_ifs <;> simp

theorem headD_map_mk (l : List (List Char)) :
    (l.map String.mk).headD "" = String.mk (l.headD []) := by
  cases l <;> rfl

theorem mk_eq_empty {l : List Char} : String.mk l = "" ↔ l = [] := by
  constructor
  · intro h
    have := congrArg String.data h
    exact this
  · intro h
    rw [h]

/-- Appending one more separator does not change the first split field. -/
theorem headD_splitChar_append_sep (sep : Char) (l : List Char) :
    (splitChar sep (l ++ [sep])).headD [] = (splitChar sep l).headD [] := by
  induction l with
  | nil => simp [splitChar]
  | cons c cs ih =>
    by_cases h : c = sep
    · subst h
      simp [splitChar]
    · have e1 : splitChar sep (c :: (cs ++ [sep])) =
          (c :: (splitChar sep (cs ++ [sep])).headD []) :: (splitChar sep (cs ++ [sep])).tail := by
        simp [splitChar, h]
      have e2 : splitChar sep (c :: cs) =
          (c :: (splitChar sep cs).headD []) :: (splitChar sep cs).tail := by
        simp [splitChar, h]
      rw [List.cons_append, e1, e2]
      show c :: (splitChar sep (cs ++ [sep])).headD [] = c :: (splitChar sep cs).headD []
      rw [ih]

/-- Appending one more separator does not change the stripped list. -/
theorem stripL_append_sep (sep : Char) (l : List Char) :
    stripL sep (l ++ [sep]) = stripL sep l := by
  unfold stripL
  rw [List.dropWhile_append]
  by_cases h : l.dropWhile (fun c => c = sep) = []
  · simp [h]
  · rw [if_neg (by simp [List.isEmpty_iff, h])]
    simp [List.reverse_append]

/-- Appending one more separator after the first dropped separators does
not change the first segment of the split. -/
theorem headD_splitChar_dropWhile_append (sep : Char) (l : List Char) :
    (splitChar sep ((l ++ [sep]).dropWhile (fun c => c = sep))).headD [] =
      (splitChar sep (l.dropWhile (fun c => c = sep))).headD [] := by
  rw [List.dropWhile_append]
  by_cases h : l.dropWhile (fun c => c = sep) = []
  · simp [h, splitChar]
  · rw [if_neg (by simp [List.isEmpty_iff, h])]
    exact headD_splitChar_append_sep sep (l.dropWhile (fun c => c = sep))

/-- The API check ignores one trailing separator on a non-empty path. -/
theorem is_api_path_append_sep {q : List Char} (hq : q ≠ []) :
    is_api_path (String.mk (q ++ ['/'])) = is_api_path (String.mk q) := by
  unfold is_api_path
  rw [if_neg (fun h => by simp [mk_eq_empty] at h),
    if_neg (fun h => hq (mk_eq_empty.mp h))]
  show decide (pyLower (((splitChar '/' (lstripL '/' (q ++ ['/']))).map String.mk).headD "")
        ∈ API_PREFIXES) = _
  rw [headD_map_mk]
  show _ = decide (pyLower (((splitChar '/' (lstripL '/' q)).map String.mk).headD "")
        ∈ API_PREFIXES)
  rw [headD_map_mk]
  unfold lstripL
  rw [headD_splitChar_dropWhile_append]

/-- The `parts` list ignores one trailing separator on a non-empty path. -/
theorem partsOfPath_append_sep {q : List Char} (hq : q ≠ []) :
    partsOfPath (String.mk (q ++ ['/'])) = partsOfPath (String.mk q) := by
  unfold partsOfPath
  rw [if_neg (fun h => by simp [mk_eq_empty] at h),
    if_neg (fun h => hq (mk_eq_empty.mp h))]
  show (splitChar '/' (stripL '/' (q ++ ['/']))).map String.mk =
    (splitChar '/' (stripL '/' q)).map String.mk
  rw [stripL_append_sep]

/-- C8 amended: resolution is invariant under surrounding the raw path with
leading and trailing separators — for every host, mode and raw path,
`/rawPath/` resolves exactly as `rawPath` — while case variation in path
segments is not neutral (see the counterexample): segments are compared
case-sensitively against the page sets, and only the API-prefix check
lower-cases. -/
theorem slash_trim_invariant (host rawPath mode : String) :
    resolve host ("/" ++ rawPath ++ "/") mode = resolve host rawPath mode := by
  unfold resolve pathOf
  have hdata : ("/" ++ rawPath ++ "/").toList = '/' :: (rawPath.toList ++ ['/']) := by
    show ("/" ++ rawPath ++ "/").data = '/' :: (rawPath.data ++ ['/'])
    rw [String.data_append, String.data_append]
    simp
  rw [hdata, List.dropWhile_cons_of_pos (by decide), List.dropWhile_append]
  by_cases h : rawPath.toList.dropWhile (fun c => c = '/') = []
  · rw [h]
    rfl
  · have hne : (rawPath.toList.dropWhile (fun c => c = '/')).isEmpty = false := by
      cases hd : rawPath.toList.dropWhile (fun c => c = '/') with
      | nil => exact absurd hd h
      | cons a l => rfl
    rw [if_neg (fun hi => Bool.false_ne_true (hne ▸ hi))]
    exact catch_all_congr (is_api_path_append_sep h) (partsOfPath_append_sep h)

end ClientRoutes
